import Mathlib

/-!
Shallow embedding of the streaming TTS client in `orpheus.py`
(`LocalTTS`, `ChunkedStream`, `SynthesizeStream`), covering:

* the options struct `_TTSOptions` and `LocalTTS.update_options`;
* the per-stream option snapshot taken with `dataclasses.replace`;
* the sentence-send task `_sentence_stream_task`;
* the receive-and-demux task `_recv_task` as a step function over
  inbound websocket messages, tracking the calls made to the audio
  output emitter;
* the overall `SynthesizeStream._run` control flow (connect, task
  launch, error mapping in the `except` clauses, and the `finally`
  blocks), with the external world (connect outcome, inbound frames,
  sibling-task failures, socket close outcome) supplied as inputs.

Python side effects are made explicit: the emitter is represented by
the ordered list of calls issued to it, exceptions by explicit error
values, and `utils.shortuuid()` by an injective supply of identifiers
indexed by a counter.
-/

/-- Model of `utils.shortuuid()`: an id supply indexed by a counter.
The supply is injective (distinct draws give distinct ids), which is the
property the random generator is relied on for. -/
def shortuuid (n : Nat) : String :=
  String.mk (List.replicate (n + 1) 'u')

/-- `AUDIO_FRAME_SIZE_MS = 20` (orpheus.py line 23). -/
def AUDIO_FRAME_SIZE_MS : Nat := 20

/-- A call issued to the audio output emitter (`tts.AudioEmitter`),
apart from its one-time setup call which is tracked separately. -/
inductive EmitterCall
  | startSegment (segment_id : String)
  | push (data : List Nat)
  | endSegment
  | flush
  deriving DecidableEq, Repr

/-- Python-level exceptions relevant to `SynthesizeStream._run` and its
inner tasks. `jsonDecodeError` stands for `json.loads` failing,
`keyError` for a missing dict key, `clientError` for
`aiohttp.ClientResponseError`/`aiohttp.ClientConnectionError`,
`otherError` for any other `Exception`. -/
inductive PyErr
  | timeoutError
  | clientError (msg : String)
  | cancelledError
  | jsonDecodeError
  | keyError (key : String)
  | otherError (msg : String)
  deriving DecidableEq, Repr

/-- The error, if any, that `SynthesizeStream._run` lets escape to its
caller. `apiTimeout` is `APITimeoutError`, `apiConnection` is
`APIConnectionError` with its message, `unhandled` is an exception that
none of the `except` clauses catches (e.g. `asyncio.CancelledError`, or
an exception raised inside the `finally` block itself). -/
inductive FinalErr
  | apiTimeout
  | apiConnection (msg : String)
  | unhandled (e : PyErr)
  deriving DecidableEq, Repr

/-- The `except` clauses of `SynthesizeStream._run` (orpheus.py lines
268-273): `asyncio.TimeoutError → APITimeoutError`; aiohttp client
errors → `APIConnectionError("Failed to connect to Local TTS: ...")`;
`asyncio.CancelledError` derives from `BaseException` in Python ≥ 3.8 so
no clause catches it; any other `Exception → APIConnectionError()`. -/
def mapErr : PyErr → FinalErr
  | .timeoutError => .apiTimeout
  | .clientError m => .apiConnection ("Failed to connect to Local TTS: " ++ m)
  | .cancelledError => .unhandled .cancelledError
  | _ => .apiConnection ""

/-- `_TTSOptions` (orpheus.py lines 25-35). -/
structure _TTSOptions where
  voice : String
  language : String
  base_url : String
  deriving DecidableEq, Repr

/-- The `NotGivenOr[T]` / `NOT_GIVEN` sentinel scheme of
`livekit.agents.types`. -/
inductive NotGivenOr (α : Type)
  | NOT_GIVEN
  | given (a : α)
  deriving DecidableEq, Repr

/-- `livekit.agents.utils.is_given`. -/
def is_given : NotGivenOr α → Bool
  | .NOT_GIVEN => false
  | .given _ => true

/-- `LocalTTS.update_options` (orpheus.py lines 84-93): assigns
`self._opts.language` when `language` is given and `self._opts.voice`
when `voice` is given; no other field is touched. -/
def update_options (opts : _TTSOptions) (language voice : NotGivenOr String) :
    _TTSOptions :=
  let o1 := match language with
    | .given l => { opts with language := l }
    | .NOT_GIVEN => opts
  match voice with
  | .given v => { o1 with voice := v }
  | .NOT_GIVEN => o1

/-- `dataclasses.replace(tts._opts)` (orpheus.py lines 121 and 163):
builds a fresh `_TTSOptions` object with the same field values, so the
stream's `_opts` does not alias the client's `_opts`. -/
def replace_copy (o : _TTSOptions) : _TTSOptions :=
  ⟨o.voice, o.language, o.base_url⟩

/-- The mutable state relevant to option snapshotting: the `LocalTTS`
client's `_opts` object and, for each stream constructed so far (both
`ChunkedStream.__init__` and `SynthesizeStream.__init__` take the same
snapshot), the `_opts` value that stream holds. -/
structure ClientWorld where
  opts : _TTSOptions
  stream_opts : List _TTSOptions
  deriving DecidableEq, Repr

/-- Stream construction: `self._opts = replace(tts._opts)`
(orpheus.py lines 121 and 163). -/
def stream_new (w : ClientWorld) : ClientWorld :=
  { w with stream_opts := w.stream_opts ++ [replace_copy w.opts] }

/-- `LocalTTS.update_options` mutates the fields of the client's own
`_opts` object in place; stream snapshots are separate objects and are
not touched. -/
def client_update_options (w : ClientWorld) (language voice : NotGivenOr String) :
    ClientWorld :=
  { w with opts := update_options w.opts language voice }

/-- One outgoing websocket text frame, as assembled by
`_sentence_stream_task` (orpheus.py lines 184-199): the JSON object
`{"voice": ..., "input": ..., "continue": ..., "segment_id": ...}`.
The field `continue` is a reserved word in Lean, hence `continue_`. -/
structure SynthRequest where
  voice : String
  input : String
  continue_ : Bool
  segment_id : String
  deriving DecidableEq, Repr

/-- The per-token loop of `_sentence_stream_task` (orpheus.py lines
186-193): for each sentence token, a packet with `input = token + " "`,
`continue = True` and a fresh `segment_id = utils.shortuuid()`.
`u0` is the position of the id supply when the loop starts. -/
def sendTokens (voice : String) : Nat → List String → List SynthRequest
  | _, [] => []
  | u0, tok :: rest =>
    ⟨voice, tok ++ " ", true, shortuuid u0⟩ :: sendTokens voice (u0 + 1) rest

/-- `_sentence_stream_task` (orpheus.py lines 184-199): the requests it
sends over the session when it consumes the token sequence `tokens` to
completion — one packet per token, then the terminal packet
`{"input": "", "continue": False, "segment_id": "final"}`. -/
def _sentence_stream_task (voice : String) (tokens : List String) (u0 : Nat) :
    List SynthRequest :=
  sendTokens voice u0 tokens ++ [⟨voice, "", false, "final"⟩]

/-- Result of `json.loads(msg.data)` followed by the field accesses the
code performs: either the text failed to parse as a JSON object
(`malformed`, in which case `json.loads` raises), or it parsed and has
an optional `"type"` field (read with `.get`) and an optional
`"segment_id"` field (read with `[...]`, raising `KeyError` when
absent). -/
inductive JsonResult
  | malformed
  | obj (type_ : Option String) (segment_id : Option String)
  deriving DecidableEq, Repr

/-- One inbound websocket message, as classified by `_recv_task`
(orpheus.py lines 215-236): a close-type message (`CLOSED`, `CLOSE`,
`CLOSING` — the loop breaks), a binary audio frame, a text frame, or any
other message type (no branch matches: no action). -/
inductive WSMsg
  | close
  | binary (data : List Nat)
  | text (j : JsonResult)
  | other
  deriving DecidableEq, Repr

/-- The local state of `_recv_task` (orpheus.py lines 211-213): the
`segment_started` and `first_chunk` flags, plus, made explicit: whether
`self._start_time` is set (truthy), the position of the shortuuid
supply, the audio-emitter calls issued so far (in order), and the log
lines printed so far. -/
structure RecvState where
  segment_started : Bool
  first_chunk : Bool
  hasStartTime : Bool
  uuidCtr : Nat
  calls : List EmitterCall
  logs : List String
  deriving DecidableEq, Repr

/-- Outcome of one iteration of the `async for msg in ws` body: continue
the loop, `break` out of it, or raise an exception (which carries the
state reached so far, since the `finally` block still sees it). -/
inductive StepResult
  | continue_ (st : RecvState)
  | break_ (st : RecvState)
  | error (e : PyErr) (st : RecvState)
  deriving DecidableEq, Repr

/-- The state carried by any `StepResult`. -/
def StepResult.st : StepResult → RecvState
  | .continue_ s => s
  | .break_ s => s
  | .error _ s => s

/-- One iteration of the `async for msg in ws` loop body of `_recv_task`
(orpheus.py lines 215-248), in source order: close-type messages break;
binary frames first open a segment with a fresh id if none is open, then
print the TTFB line on the first chunk when `self._start_time` is set,
then push the bytes; text frames are JSON-parsed (raising on malformed
input), a `"start"` opens a segment with the server-supplied id only if
none is open (`data["segment_id"]` raising `KeyError` when missing), an
`"end"` does nothing, and any other type is logged. -/
def recvStep (st : RecvState) : WSMsg → StepResult
  | .close => .break_ st
  | .other => .continue_ st
  | .binary data =>
    let st1 := if st.segment_started then st else
      { st with
        calls := st.calls ++ [.startSegment (shortuuid st.uuidCtr)]
        uuidCtr := st.uuidCtr + 1
        segment_started := true }
    let st2 := if st1.first_chunk && st1.hasStartTime then
      { st1 with logs := st1.logs ++ ["ttfb"], first_chunk := false } else st1
    .continue_ { st2 with calls := st2.calls ++ [.push data] }
  | .text .malformed => .error .jsonDecodeError st
  | .text (.obj t sid) =>
    if t = some "start" then
      if st.segment_started then .continue_ st
      else
        match sid with
        | some s =>
          .continue_ { st with
            calls := st.calls ++ [.startSegment s]
            segment_started := true }
        | none => .error (.keyError "segment_id") st
    else if t = some "end" then .continue_ st
    else .continue_ { st with logs := st.logs ++ ["unknown"] }

/-- Whether a loop-body outcome continues the loop normally. -/
def StepResult.isCont : StepResult → Bool
  | .continue_ _ => true
  | _ => false

/-- How the `async for` loop of `_recv_task` ended: the message source
was exhausted, the body executed `break`, or the body raised. -/
inductive RecvLoopExit
  | exhausted
  | broke
  | errored (e : PyErr)
  deriving DecidableEq, Repr

/-- The `async for msg in ws` loop of `_recv_task`, folding `recvStep`
over the inbound messages. -/
def recvLoop (st : RecvState) : List WSMsg → RecvState × RecvLoopExit
  | [] => (st, .exhausted)
  | m :: ms =>
    match recvStep st m with
    | .continue_ st1 => recvLoop st1 ms
    | .break_ st1 => (st1, .broke)
    | .error e st1 => (st1, .errored e)

/-- Initial state of `_recv_task`: `segment_started = False`,
`first_chunk = True` (orpheus.py lines 212-213), empty call and log
histories, id supply at 0. -/
def initState (hasStartTime : Bool) : RecvState :=
  ⟨false, true, hasStartTime, 0, [], []⟩

/-- The messages the loop body actually processes: all of them when the
task runs undisturbed, or a prefix when the task is cancelled at the
suspension point before message `k` (cooperative cancellation delivered
while awaiting the next frame). -/
def recvMsgs (msgs : List WSMsg) : Option Nat → List WSMsg
  | none => msgs
  | some k => msgs.take k

/-- How `_recv_task` as a whole terminated. `cancelled` means
`asyncio.CancelledError` was delivered and suppressed by the
`except asyncio.CancelledError: pass` clause (orpheus.py lines 249-250),
after which the task returns normally; `errored` means an exception from
the loop body propagates out of the task (after the `finally` block
runs). -/
inductive RecvOutcome
  | completed
  | cancelled
  | errored (e : PyErr)
  deriving DecidableEq, Repr

/-- The state of `_recv_task` when control reaches its `finally` block,
for inbound messages `msgs` and optional cancellation point
`interrupt`. -/
def recvRunSt (hasStartTime : Bool) (msgs : List WSMsg) (interrupt : Option Nat) :
    RecvState :=
  (recvLoop (initState hasStartTime) (recvMsgs msgs interrupt)).1

/-- How `_recv_task` terminates: a body exception always propagates;
otherwise a delivered cancellation is suppressed (the task still ends,
with the cancellation swallowed) and a `break` or exhausted message
source is normal completion. -/
def recvRunOutcome (hasStartTime : Bool) (msgs : List WSMsg)
    (interrupt : Option Nat) : RecvOutcome :=
  match interrupt, (recvLoop (initState hasStartTime) (recvMsgs msgs interrupt)).2 with
  | _, .errored e => .errored e
  | none, _ => .completed
  | some _, .broke => .completed
  | some _, .exhausted => .cancelled

/-- What `_recv_task` produced: the full ordered list of emitter calls
(including the one issued by its `finally` block), the log lines, and
its termination outcome. -/
structure RecvResult where
  calls : List EmitterCall
  logs : List String
  outcome : RecvOutcome
  deriving DecidableEq, Repr

/-- `_recv_task` (orpheus.py lines 211-253): run the receive loop over
`msgs` (cut short at `interrupt` if the task is cancelled there), then
the `finally` block ends the segment iff one is still open. -/
def _recv_task (hasStartTime : Bool) (msgs : List WSMsg) (interrupt : Option Nat) :
    RecvResult :=
  let st := recvRunSt hasStartTime msgs interrupt
  ⟨st.calls ++ (if st.segment_started then [.endSegment] else []),
   st.logs,
   recvRunOutcome hasStartTime msgs interrupt⟩

/-- Validity automaton for the emitter call sequence: given the current
open/closed flag, consume the calls; `startSegment` is legal only when
no segment is open, `push` and `endSegment` only when one is open; the
result is the final flag, or `none` if some call was out of place. -/
def wfRun : Bool → List EmitterCall → Option Bool
  | b, [] => some b
  | false, .startSegment _ :: r => wfRun true r
  | true, .push _ :: r => wfRun true r
  | true, .endSegment :: r => wfRun false r
  | _, _ => none

/-- A well-formed segment call sequence: starting closed, every call is
legal and every opened segment is closed by the end — i.e. no push
before a start, at most one segment open at a time (so no second start
without an intervening end), and exactly one end per opened segment. -/
def wellFormed (cs : List EmitterCall) : Prop :=
  wfRun false cs = some false

/-- The arguments of the one-time emitter setup call performed at the
top of `SynthesizeStream._run` (orpheus.py lines 174-182). -/
structure SetupParams where
  request_id : String
  sample_rate : Nat
  num_channels : Nat
  mime_type : String
  stream : Bool
  frame_size_ms : Nat
  deriving DecidableEq, Repr

/-- The concrete setup call `SynthesizeStream._run` makes:
`request_id = utils.shortuuid()`, `sample_rate = 24000`,
`num_channels = 1`, `mime_type = "audio/pcm"`, `stream = True`,
`frame_size_ms = AUDIO_FRAME_SIZE_MS`. -/
def setupParams : SetupParams :=
  ⟨shortuuid 0, 24000, 1, "audio/pcm", true, AUDIO_FRAME_SIZE_MS⟩

/-- The external world one execution of `SynthesizeStream._run` interacts
with: whether the websocket connect fails (and how), the sentence tokens
the tokenizer stream yields, the inbound frames, an optional cancellation
point for the receive task, an optional failure from the other two tasks
or the gather itself, whether `ws.closed` already holds when the outer
`finally` runs, and whether `_close_ws` itself fails. -/
structure RunEnv where
  connectErr : Option PyErr
  tokens : List String
  msgs : List WSMsg
  recvInterrupt : Option Nat
  extraErr : Option PyErr
  wsClosed : Bool
  closeErr : Option PyErr
  hasStartTime : Bool
  deriving DecidableEq, Repr

/-- Observable outcome of one execution of `SynthesizeStream._run`:
the emitter setup call (if reached), whether the three tasks were
created, the requests sent over the websocket (in order), the segment
calls issued to the emitter (in order), whether `_close_ws` was invoked
by the outer `finally`, and the error (if any) escaping to the caller. -/
structure RunResult where
  setup : Option SetupParams
  tasksLaunched : Bool
  requests : List SynthRequest
  emitterCalls : List EmitterCall
  closedWs : Bool
  result : Option FinalErr
  deriving DecidableEq, Repr

/-- `SynthesizeStream._run` (orpheus.py lines 173-276). Control flow in
source order: the emitter setup call happens first, unconditionally,
before the connect attempt; then `ws = await self._tts._connect_ws(...)`
— on failure the `except` clauses map the exception and the `finally`
block has no websocket to close; on success the three tasks are created
and gathered. The requests field records what `_sentence_stream_task`
sends when it runs to completion; the emitter calls come from
`_recv_task`. The first failing task's exception (or, if the receive
task succeeds, any failure `extraErr` of the other tasks) is what
`asyncio.gather` raises, mapped by the `except` clauses; a suppressed
cancellation of the receive task is not an error. The outer `finally`
closes the websocket iff it is non-`None` and not already closed; an
exception raised by `_close_ws` there is not caught and replaces
whatever error was propagating (Python `finally` semantics). Task
interleaving is abstracted: no claim compares the relative order of
sends and receives. -/
def _run (voice : String) (env : RunEnv) : RunResult :=
  match env.connectErr with
  | some e =>
    ⟨some setupParams, false, [], [], false, some (mapErr e)⟩
  | none =>
    let recv := _recv_task env.hasStartTime env.msgs env.recvInterrupt
    let reqs := _sentence_stream_task voice env.tokens 1
    let bodyErr : Option PyErr :=
      match recv.outcome with
      | .errored e => some e
      | _ => env.extraErr
    let r0 : Option FinalErr := bodyErr.map mapErr
    let doClose := !env.wsClosed
    let result : Option FinalErr :=
      if doClose then
        match env.closeErr with
        | some e2 => some (.unhandled e2)
        | none => r0
      else r0
    ⟨some setupParams, true, reqs, recv.calls, doClose, result⟩

/-- Scenario environment for the spec's end-to-end example: one sentence
token "Hello world.", the server replies with a `start` frame and three
binary chunks and then closes the connection. -/
def envScenario : RunEnv :=
  { connectErr := none
    tokens := ["Hello world."]
    msgs := [.text (.obj (some "start") (some "seg-1")),
             .binary [1], .binary [2], .binary [3]]
    recvInterrupt := none
    extraErr := none
    wsClosed := true
    closeErr := none
    hasStartTime := true }

/-- Environment in which the gathered tasks fail with a connection error
and the websocket close in the outer `finally` fails as well. -/
def envCloseFail : RunEnv :=
  { connectErr := none
    tokens := []
    msgs := []
    recvInterrupt := none
    extraErr := some (.clientError "boom")
    wsClosed := false
    closeErr := some (.otherError "close fail")
    hasStartTime := false }

/-- Environment in which the websocket connect times out. -/
def envTimeout : RunEnv :=
  { connectErr := some .timeoutError
    tokens := ["Hello world."]
    msgs := []
    recvInterrupt := none
    extraErr := none
    wsClosed := false
    closeErr := none
    hasStartTime := true }

/-- The invariant of the receive loop: the emitter calls issued so far
form a valid prefix whose open/closed status matches `segment_started`,
and no `endSegment` has been issued yet (only the `finally` block ever
issues one). -/
def StInv (st : RecvState) : Prop :=
  wfRun false st.calls = some st.segment_started ∧
  EmitterCall.endSegment ∉ st.calls

theorem shortuuid_injective : Function.Injective shortuuid := by
  intro a b h
  have hd : List.replicate (a + 1) 'u' = List.replicate (b + 1) 'u' :=
    congrArg String.data h
  have hl := congrArg List.length hd
  simpa using hl

theorem shortuuid_ne_final (n : Nat) : shortuuid n ≠ "final" := by
  intro h
  have hd : List.replicate (n + 1) 'u' = "final".data := congrArg String.data h
  have h5 : ("final".data).length = 5 := rfl
  have hl : n + 1 = 5 := by
    have := congrArg List.length hd
    simpa [h5] using this
  rw [hl] at hd
  exact absurd hd (by decide)

theorem wfRun_append (xs ys : List EmitterCall) :
    ∀ b, wfRun b (xs ++ ys) = (wfRun b xs).bind fun b1 => wfRun b1 ys := by
  induction xs with
  | nil => intro b; simp [wfRun]
  | cons c rest ih =>
    intro b
    cases b <;> cases c <;> simp [wfRun, ih]

theorem recvStep_StInv (st : RecvState) (m : WSMsg) (h : StInv st) :
    StInv (recvStep st m).st := by
  obtain ⟨h1, h2⟩ := h
  cases m with
  | close => exact ⟨h1, h2⟩
  | other => exact ⟨h1, h2⟩
  | binary data =>
    cases hb : st.segment_started <;> rw [hb] at h1 <;>
      cases hf : st.first_chunk <;> cases hs : st.hasStartTime <;>
        exact ⟨by simp [recvStep, StepResult.st, hb, hf, hs, wfRun_append, h1, wfRun],
               by simp [recvStep, StepResult.st, hb, hf, hs, h2]⟩
  | text j =>
    cases j with
    | malformed => exact ⟨h1, h2⟩
    | obj t sid =>
      by_cases ht : t = some "start"
      · cases hb : st.segment_started <;> rw [hb] at h1
        · cases sid with
          | none =>
            refine ⟨?_, ?_⟩ <;> simp [recvStep, ht, hb, StepResult.st, h1, h2]
          | some s_ =>
            exact ⟨by simp [recvStep, ht, hb, StepResult.st, wfRun_append, h1, wfRun],
                   by simp [recvStep, ht, hb, StepResult.st, h2]⟩
        · refine ⟨?_, ?_⟩ <;> simp [recvStep, ht, hb, StepResult.st, h1, h2]
      · by_cases he : t = some "end"
        · refine ⟨?_, ?_⟩ <;> simp [recvStep, ht, he, StepResult.st, h1, h2]
        · refine ⟨?_, ?_⟩ <;> simp [recvStep, ht, he, StepResult.st, h1, h2]

theorem recvLoop_StInv (msgs : List WSMsg) :
    ∀ st : RecvState, StInv st → StInv (recvLoop st msgs).1 := by
  induction msgs with
  | nil => intro st h; simpa [recvLoop] using h
  | cons m ms ih =>
    intro st h
    have hstep := recvStep_StInv st m h
    rcases hr : recvStep st m with st1 | st1 | ⟨e, st1⟩
    · rw [hr] at hstep
      simp only [StepResult.st] at hstep
      have heq : recvLoop st (m :: ms) = recvLoop st1 ms := by
        simp [recvLoop, hr]
      rw [heq]
      exact ih st1 hstep
    · rw [hr] at hstep
      simp only [StepResult.st] at hstep
      have heq : recvLoop st (m :: ms) = (st1, .broke) := by
        simp [recvLoop, hr]
      rw [heq]
      exact hstep
    · rw [hr] at hstep
      simp only [StepResult.st] at hstep
      have heq : recvLoop st (m :: ms) = (st1, .errored e) := by
        simp [recvLoop, hr]
      rw [heq]
      exact hstep

theorem recvRunSt_StInv (hst : Bool) (msgs : List WSMsg) (interrupt : Option Nat) :
    StInv (recvRunSt hst msgs interrupt) :=
  recvLoop_StInv _ _ ⟨by simp [initState, wfRun], by simp [initState]⟩

theorem recv_task_wellFormed (hst : Bool) (msgs : List WSMsg) (interrupt : Option Nat) :
    wellFormed (_recv_task hst msgs interrupt).calls := by
  obtain ⟨h1, h2⟩ := recvRunSt_StInv hst msgs interrupt
  unfold wellFormed _recv_task
  cases hb : (recvRunSt hst msgs interrupt).segment_started <;>
    rw [hb] at h1 <;> simp [hb, wfRun_append, h1, wfRun]

theorem sendTokens_length (voice : String) (tokens : List String) :
    ∀ u0 : Nat, (sendTokens voice u0 tokens).length = tokens.length := by
  induction tokens with
  | nil => intro u0; simp [sendTokens]
  | cons t rest ih => intro u0; simp [sendTokens, ih]

theorem sendTokens_getElem (voice : String) (tokens : List String) :
    ∀ u0 i : Nat,
      (sendTokens voice u0 tokens)[i]? =
        (tokens[i]?).map fun tok =>
          (⟨voice, tok ++ " ", true, shortuuid (u0 + i)⟩ : SynthRequest) := by
  induction tokens with
  | nil => intro u0 i; simp [sendTokens]
  | cons t rest ih =>
    intro u0 i
    cases i with
    | zero => simp [sendTokens]
    | succ n =>
      have harith : u0 + 1 + n = u0 + (n + 1) := by omega
      simp [sendTokens, ih (u0 + 1) n, harith]

theorem sendTokens_no_terminal (voice : String) (tokens : List String) :
    ∀ u0 : Nat,
      (sendTokens voice u0 tokens).countP (fun r => r.continue_ == false) = 0 := by
  induction tokens with
  | nil => intro u0; simp [sendTokens]
  | cons t rest ih =>
    intro u0
    rw [show sendTokens voice u0 (t :: rest) =
          ⟨voice, t ++ " ", true, shortuuid u0⟩ :: sendTokens voice (u0 + 1) rest
        from rfl,
      List.countP_cons, ih]
    simp

/-- C1: for every interleaving of inbound binary and control frames
processed by `_recv_task`, and whether the task completes normally, is
cancelled at any point, or terminates with an error, the audio emitter
observes a well-formed call sequence: no push before a segment start, at
most one segment open at a time (a `start` frame or binary chunk arriving
while a segment is open never opens a new one), and every opened segment
receives exactly one `endSegment` call. -/
theorem claim_C1_recv_wellformed (hasStartTime : Bool) (msgs : List WSMsg)
    (interrupt : Option Nat) :
    wellFormed (_recv_task hasStartTime msgs interrupt).calls :=
  recv_task_wellFormed hasStartTime msgs interrupt

/-- C2: for every token sequence produced by the segmenter,
`_sentence_stream_task` sends exactly one request per token plus one
terminal request; the terminal request is last, is the only one with
`continue = false`, and has empty text and segment id `"final"`; every
preceding request has `continue = true`, the token's text plus a space,
and a fresh segment id (distinct draws of the id supply are distinct and
never equal to `"final"`). -/
theorem claim_C2_requests_count (voice : String) (tokens : List String) (u0 : Nat) :
    (_sentence_stream_task voice tokens u0).length = tokens.length + 1 ∧
    (_sentence_stream_task voice tokens u0).getLast? =
      some ⟨voice, "", false, "final"⟩ ∧
    (∀ (i : Nat) (tok : String), tokens[i]? = some tok →
      (_sentence_stream_task voice tokens u0)[i]? =
        some (⟨voice, tok ++ " ", true, shortuuid (u0 + i)⟩ : SynthRequest)) ∧
    (_sentence_stream_task voice tokens u0).countP
        (fun r => r.continue_ == false) = 1 ∧
    (∀ i j : Nat, i ≠ j → shortuuid (u0 + i) ≠ shortuuid (u0 + j)) ∧
    (∀ i : Nat, shortuuid (u0 + i) ≠ "final") := by
  refine ⟨?_, ?_, ?_, ?_, ?_, ?_⟩
  · simp [_sentence_stream_task, sendTokens_length]
  · simp [_sentence_stream_task]
  · intro i tok htok
    have hi : i < tokens.length := by
      by_contra hge
      push_neg at hge
      rw [List.getElem?_eq_none hge] at htok
      exact Option.noConfusion htok
    have hi1 : i < (sendTokens voice u0 tokens).length := by
      rw [sendTokens_length]; exact hi
    simp only [_sentence_stream_task]
    rw [List.getElem?_append_left hi1, sendTokens_getElem, htok]
    rfl
  · simp only [_sentence_stream_task]
    rw [List.countP_append, sendTokens_no_terminal]
    simp [List.countP_cons]
  · intro i j hij h
    have := shortuuid_injective h
    omega
  · intro i
    exact shortuuid_ne_final _

/-- C2 witness at `voice = "tara"`, `tokens = ["a", "b"]`, `u0 = 0`. -/
theorem claim_C2_requests_count_witness :
    (_sentence_stream_task "tara" ["a", "b"] 0).length = 3 ∧
    (_sentence_stream_task "tara" ["a", "b"] 0)[0]? =
      some ⟨"tara", "a ", true, shortuuid 0⟩ ∧
    shortuuid 0 ≠ shortuuid 1 ∧
    shortuuid 0 ≠ "final" := by
  obtain ⟨hlen, _, hidx, _, hinj, hfin⟩ :=
    claim_C2_requests_count "tara" ["a", "b"] 0
  refine ⟨by simpa using hlen, ?_, ?_, ?_⟩
  · simpa using hidx 0 "a" rfl
  · simpa using hinj 0 1 (by decide)
  · simpa using hfin 0

/-- C3: when a binary audio frame arrives while no segment is open, the
loop body opens a segment with a freshly drawn id and pushes the chunk's
bytes, in that order, and the loop continues; the drawn id differs from
every id the supply produced before. -/
theorem claim_C3_binary_starts_segment (st : RecvState) (data : List Nat)
    (h : st.segment_started = false) :
    (recvStep st (.binary data)).st.calls =
      st.calls ++ [.startSegment (shortuuid st.uuidCtr), .push data] ∧
    (recvStep st (.binary data)).st.segment_started = true ∧
    (recvStep st (.binary data)).st.uuidCtr = st.uuidCtr + 1 ∧
    (∀ m, m < st.uuidCtr → shortuuid st.uuidCtr ≠ shortuuid m) ∧
    (recvStep st (.binary data)).isCont = true := by
  have hfresh : ∀ m, m < st.uuidCtr → shortuuid st.uuidCtr ≠ shortuuid m := by
    intro m hm heq
    have := shortuuid_injective heq
    omega
  cases hf : st.first_chunk <;> cases hs : st.hasStartTime <;>
    exact ⟨by simp [recvStep, StepResult.st, h, hf, hs],
           by simp [recvStep, StepResult.st, h, hf, hs],
           by simp [recvStep, StepResult.st, h, hf, hs],
           hfresh,
           by simp [recvStep, StepResult.isCont, h, hf, hs]⟩

/-- C3 witness at the initial receive state and chunk `[5]`. -/
theorem claim_C3_binary_starts_segment_witness :
    (recvStep (initState true) (.binary [5])).st.calls =
      [.startSegment (shortuuid 0), .push [5]] ∧
    (recvStep (initState true) (.binary [5])).st.segment_started = true := by
  obtain ⟨h1, h2, _, _, _⟩ :=
    claim_C3_binary_starts_segment (initState true) [5] rfl
  exact ⟨by simpa [initState] using h1, h2⟩

/-- C4 counterexample: a malformed text frame is fatal, not merely
logged — `json.loads` raises, the receive loop stops (the following
binary frame is never processed) and the task terminates with the
decode error. -/
theorem claim_C4_counterexample :
    (_recv_task false [.text .malformed, .binary [1]] none).outcome =
      .errored .jsonDecodeError ∧
    (_recv_task false [.text .malformed, .binary [1]] none).calls = [] := by
  exact ⟨rfl, rfl⟩

/-- C4 amended: a text frame that parses as an object with an
unrecognized (or missing) type is non-fatal — it is logged and the loop
continues with unchanged emitter state; but text that fails to parse
raises a decode error, and a `start` frame missing its `segment_id`
while no segment is open raises a key error, both of which terminate the
receive loop. -/
theorem claim_C4_malformed_amended (st : RecvState) (t sid : Option String)
    (h1 : t ≠ some "start") (h2 : t ≠ some "end") :
    recvStep st (.text (.obj t sid)) =
      .continue_ { st with logs := st.logs ++ ["unknown"] } ∧
    recvStep st (.text .malformed) = .error .jsonDecodeError st ∧
    (st.segment_started = false →
      recvStep st (.text (.obj (some "start") none)) =
        .error (.keyError "segment_id") st) := by
  refine ⟨by simp [recvStep, h1, h2], rfl, fun hb => by simp [recvStep, hb]⟩

/-- C4 amended witness at the initial receive state and type `"ping"`. -/
theorem claim_C4_malformed_amended_witness :
    recvStep (initState false) (.text (.obj (some "ping") none)) =
      .continue_ { initState false with logs := ["unknown"] } ∧
    recvStep (initState false) (.text .malformed) =
      .error .jsonDecodeError (initState false) ∧
    recvStep (initState false) (.text (.obj (some "start") none)) =
      .error (.keyError "segment_id") (initState false) := by
  obtain ⟨w1, w2, w3⟩ :=
    claim_C4_malformed_amended (initState false) (some "ping") none
      (by decide) (by decide)
  exact ⟨by simpa [initState] using w1, w2, w3 rfl⟩

/-- C5: an `end` control frame triggers no action at all (the loop state
is returned unchanged); during the loop no `endSegment` call is ever
issued, so an open segment is closed only at stream termination, when
the `finally` block appends the single `endSegment` iff a segment is
open — in particular closing happens only by stream termination (a
fortiori, only by termination or a later start). -/
theorem claim_C5_end_frame_no_action :
    (∀ (st : RecvState) (sid : Option String),
      recvStep st (.text (.obj (some "end") sid)) = .continue_ st) ∧
    (∀ (hst : Bool) (msgs : List WSMsg) (interrupt : Option Nat),
      EmitterCall.endSegment ∉ (recvRunSt hst msgs interrupt).calls) ∧
    (∀ (hst : Bool) (msgs : List WSMsg) (interrupt : Option Nat),
      (_recv_task hst msgs interrupt).calls =
        (recvRunSt hst msgs interrupt).calls ++
          (if (recvRunSt hst msgs interrupt).segment_started then
            [EmitterCall.endSegment] else [])) := by
  refine ⟨fun st sid => by simp [recvStep],
          fun hst msgs i => (recvRunSt_StInv hst msgs i).2,
          fun hst msgs i => rfl⟩

/-- C6 counterexample: a failure of the websocket close in the outer
`finally` block is not swallowed — with the gathered tasks failing with
a client error and `_close_ws` failing too, the stream surfaces the
close failure, replacing the original error. -/
theorem claim_C6_counterexample :
    (_run "tara" envCloseFail).result =
      some (.unhandled (.otherError "close fail")) ∧
    (_run "tara" envCloseFail).result ≠ some (mapErr (.clientError "boom")) := by
  exact ⟨rfl, by decide⟩

/-- C6 amended: on every exit path of `_run` the cleanup runs — any
still-open emitter segment is ended (the receive task's `finally`), and
when the connect succeeded the websocket is closed iff it is not already
closed; however a failure of the close itself is not swallowed: it
escapes to the caller, replacing any original error. -/
theorem claim_C6_finalizer_amended (voice : String) (env : RunEnv) :
    wellFormed (_run voice env).emitterCalls ∧
    (env.connectErr = none → (_run voice env).closedWs = !env.wsClosed) ∧
    (env.connectErr = none → env.wsClosed = false →
      ∀ e2, env.closeErr = some e2 →
        (_run voice env).result = some (.unhandled e2)) := by
  refine ⟨?_, ?_, ?_⟩
  · cases hc : env.connectErr with
    | some e => simp [_run, hc, wellFormed, wfRun]
    | none =>
      simpa [_run, hc] using
        recv_task_wellFormed env.hasStartTime env.msgs env.recvInterrupt
  · intro hc
    simp [_run, hc]
  · intro hc hw e2 hce
    simp [_run, hc, hw, hce]

/-- C6 amended witness at `envCloseFail`. -/
theorem claim_C6_finalizer_amended_witness :
    wellFormed (_run "tara" envCloseFail).emitterCalls ∧
    (_run "tara" envCloseFail).closedWs = true ∧
    (_run "tara" envCloseFail).result =
      some (.unhandled (.otherError "close fail")) := by
  obtain ⟨w1, w2, w3⟩ := claim_C6_finalizer_amended "tara" envCloseFail
  exact ⟨w1, by simpa using w2 rfl, w3 rfl rfl _ rfl⟩

/-- C7 counterexample: the emitter setup call does not happen "only on
successful connect" — when the connect times out, the setup call has
already been made. -/
theorem claim_C7_counterexample :
    envTimeout.connectErr = some .timeoutError ∧
    (_run "tara" envTimeout).setup = some setupParams ∧
    (_run "tara" envTimeout).setup ≠ none := by
  refine ⟨rfl, rfl, by decide⟩

/-- C7 amended: when the connect does not complete within the timeout,
the stream fails with the timeout error, the three activities are never
launched, no request is sent and no segment call is made; but the
emitter setup call (request id, sample rate 24000, 1 channel,
`audio/pcm`, 20 ms frames, streaming) happens unconditionally at the
start of the run, before the connect attempt, not only on successful
connect. -/
theorem claim_C7_timeout_amended (voice : String) (env : RunEnv)
    (h : env.connectErr = some .timeoutError) :
    (_run voice env).result = some .apiTimeout ∧
    (_run voice env).tasksLaunched = false ∧
    (_run voice env).requests = [] ∧
    (_run voice env).emitterCalls = [] ∧
    (_run voice env).setup = some setupParams := by
  simp [_run, h, mapErr]

/-- C7 amended witness at `envTimeout`. -/
theorem claim_C7_timeout_amended_witness :
    (_run "tara" envTimeout).result = some .apiTimeout ∧
    (_run "tara" envTimeout).tasksLaunched = false ∧
    (_run "tara" envTimeout).setup = some setupParams := by
  obtain ⟨w1, w2, _, _, w5⟩ := claim_C7_timeout_amended "tara" envTimeout rfl
  exact ⟨w1, w2, w5⟩

/-- C8 counterexample: in the spec's scenario (push "Hello world." then
end of input; the server sends one `start` frame, three binary chunks,
then closes) exactly 2 requests are sent, but the emitter does not
observe a trailing `flush`: `SynthesizeStream._run` never calls it. -/
theorem claim_C8_counterexample :
    (_run "tara" envScenario).requests.length = 2 ∧
    (_run "tara" envScenario).emitterCalls ≠
      [.startSegment "seg-1", .push [1], .push [2], .push [3],
       .endSegment, .flush] := by
  exact ⟨rfl, by decide⟩

/-- C8 amended: in that scenario exactly 2 requests are sent — the
sentence request (`continue = true`, `"Hello world. "`) then the
terminal request (`continue = false`, empty text, `"final"`) — and the
emitter observes exactly `startSegment, push, push, push, endSegment`,
with no flush call from the stream's run. -/
theorem claim_C8_scenario_amended :
    (_run "tara" envScenario).requests =
      [⟨"tara", "Hello world. ", true, shortuuid 1⟩,
       ⟨"tara", "", false, "final"⟩] ∧
    (_run "tara" envScenario).emitterCalls =
      [.startSegment "seg-1", .push [1], .push [2], .push [3],
       .endSegment] ∧
    EmitterCall.flush ∉ (_run "tara" envScenario).emitterCalls := by
  refine ⟨by decide, by decide, by decide⟩

/-- C9: `update_options` overwrites `language` and `voice` exactly when
they are explicitly given; `base_url` is never changed. -/
theorem claim_C9_update_options (opts : _TTSOptions)
    (language voice : NotGivenOr String) :
    (language = .NOT_GIVEN →
      (update_options opts language voice).language = opts.language) ∧
    (voice = .NOT_GIVEN →
      (update_options opts language voice).voice = opts.voice) ∧
    (∀ l, language = .given l →
      (update_options opts language voice).language = l) ∧
    (∀ v, voice = .given v →
      (update_options opts language voice).voice = v) ∧
    (update_options opts language voice).base_url = opts.base_url := by
  cases language <;> cases voice <;> simp [update_options]

/-- C9 witness: updating only the voice leaves language and base_url
unchanged and sets the voice. -/
theorem claim_C9_update_options_witness :
    (update_options ⟨"tara", "en", "http://localhost:9090"⟩
      .NOT_GIVEN (.given "zoe")).language = "en" ∧
    (update_options ⟨"tara", "en", "http://localhost:9090"⟩
      .NOT_GIVEN (.given "zoe")).voice = "zoe" ∧
    (update_options ⟨"tara", "en", "http://localhost:9090"⟩
      .NOT_GIVEN (.given "zoe")).base_url = "http://localhost:9090" := by
  obtain ⟨h1, _, _, h4, h5⟩ :=
    claim_C9_update_options ⟨"tara", "en", "http://localhost:9090"⟩
      .NOT_GIVEN (.given "zoe")
  exact ⟨h1 rfl, h4 "zoe" rfl, h5⟩

/-- C10: stream construction snapshots the client's options by copy, so
a later `update_options` on the client changes no already-created
stream's snapshot, and each snapshot equals the client options at
construction time. -/
theorem claim_C10_stream_snapshot (w : ClientWorld)
    (language voice : NotGivenOr String) :
    (client_update_options (stream_new w) language voice).stream_opts =
      (stream_new w).stream_opts ∧
    (stream_new w).stream_opts = w.stream_opts ++ [w.opts] := by
  exact ⟨rfl, rfl⟩
